/-
Verification of the leak-detection monitor (src/pressure_sensor.py).

Shallow embedding: the `PressureSensor` state mirrors the Python object's
fields; pressures and timestamps are rationals; the background sampling loop
`_monitor_loop` is embedded as a `tick` step function taking the raw reading
and the wall-clock time of that iteration as inputs, and `run` folds `tick`
over a list of (reading, time) inputs, collecting the callback invocations
as `LeakEvent`s.  Hardware setup (`setup_sensor`) and the real-sensor read
paths are not modelled; `read_pressure_sim` embeds the simulation branch of
`read_pressure` with the random jitter as an explicit parameter.
-/
import Mathlib

namespace PressureSensorModel

/-- One invocation of the leak callback: `_monitor_loop` calls
`leak_callback(inventory_id, pressure_drop, baseline_pressure, avg_pressure)`. -/
structure LeakEvent where
  inventory_id : ℕ
  pressure_drop : ℚ
  baseline : ℚ
  current : ℚ
  deriving DecidableEq, Repr

/-- The mutable fields of a `PressureSensor` object (src/pressure_sensor.py,
`__init__` plus the attributes set by `start_monitoring`). -/
structure PressureSensor where
  threshold : ℚ
  monitoring_duration : ℚ
  current_pressure : ℚ
  baseline_pressure : ℚ
  is_monitoring : Bool
  leak_detected : Bool
  pressure_history : List ℚ
  max_history : ℕ
  inventory_id : ℕ
  monitoring_start_time : ℚ
  deriving DecidableEq, Repr

/-- `__init__`: stores `threshold` (default 5.0) and `monitoring_duration`
(default 30) without any validation; zeroes the pressures and flags and
creates an empty history with `max_history = 10`. -/
def init (threshold monitoring_duration : ℚ) : PressureSensor :=
  { threshold := threshold
    monitoring_duration := monitoring_duration
    current_pressure := 0
    baseline_pressure := 0
    is_monitoring := false
    leak_detected := false
    pressure_history := []
    max_history := 10
    inventory_id := 0
    monitoring_start_time := 0 }

/-- `get_average_pressure`: mean of the sampled readings (the samples are an
explicit input here). -/
def get_average_pressure (readings : List ℚ) : ℚ :=
  readings.sum / (readings.length : ℚ)

/-- `start_monitoring`: rejected with `False` if already monitoring (before
any mutation); otherwise records the id and callback, raises the flags,
captures the baseline as the average of the initial samples and the start
time, and returns `True`.  Note: `pressure_history` is not touched. -/
def start_monitoring (s : PressureSensor) (inventory_id : ℕ)
    (baselineSamples : List ℚ) (now : ℚ) : PressureSensor × Bool :=
  if s.is_monitoring then (s, false)
  else
    ({ s with
        inventory_id := inventory_id
        is_monitoring := true
        leak_detected := false
        baseline_pressure := get_average_pressure baselineSamples
        monitoring_start_time := now }, true)

/-- `stop_monitoring`: clears the monitoring flag (the thread join has no
state effect). -/
def stop_monitoring (s : PressureSensor) : PressureSensor :=
  { s with is_monitoring := false }

/-- The history update in `_monitor_loop`: append the reading, then
`pop(0)` if the length exceeds `max_history`. -/
def pushWindow (maxH : ℕ) (h : List ℚ) (x : ℚ) : List ℚ :=
  if maxH < (h ++ [x]).length then (h ++ [x]).tail else h ++ [x]

/-- `sum(self.pressure_history) / len(self.pressure_history)`. -/
def windowAvg (h : List ℚ) : ℚ :=
  h.sum / (h.length : ℚ)

/-- The drop-percentage computation, with the division-by-zero guard:
`(baseline - value) / baseline * 100` when `baseline > 0`, else `0`. -/
def dropPct (baseline value : ℚ) : ℚ :=
  if 0 < baseline then (baseline - value) / baseline * 100 else 0

/-- The window contents after this tick appends `reading`. -/
def tickWindow (s : PressureSensor) (reading : ℚ) : List ℚ :=
  pushWindow s.max_history s.pressure_history reading

/-- `avg_pressure` computed at a tick. -/
def tickAvg (s : PressureSensor) (reading : ℚ) : ℚ :=
  windowAvg (tickWindow s reading)

/-- `pressure_drop` computed at a tick (from the smoothed average). -/
def tickDrop (s : PressureSensor) (reading : ℚ) : ℚ :=
  dropPct s.baseline_pressure (tickAvg s reading)

/-- The confirmation condition tested at a tick:
`pressure_drop >= threshold and elapsed_time >= monitoring_duration`. -/
abbrev tickCondHolds (s : PressureSensor) (reading now : ℚ) : Prop :=
  s.threshold ≤ tickDrop s reading ∧
    s.monitoring_duration ≤ now - s.monitoring_start_time

/-- One iteration of `_monitor_loop`, given the raw reading and the current
time: guarded by `is_monitoring`; stores the raw reading in
`current_pressure`; pushes the window; if the drop (computed from the window
average) reaches the threshold and the elapsed time reaches the duration and
the leak is not already flagged, sets `leak_detected`, emits the callback
event with `(inventory_id, pressure_drop, baseline_pressure, avg_pressure)`
and stops monitoring (`stop_monitoring` then `break`). -/
def tick (s : PressureSensor) (reading now : ℚ) :
    PressureSensor × Option LeakEvent :=
  if s.is_monitoring then
    let s1 := { s with
      current_pressure := reading
      pressure_history := tickWindow s reading }
    if tickCondHolds s reading now then
      if s.leak_detected then (s1, none)
      else
        ({ s1 with leak_detected := true, is_monitoring := false },
          some ⟨s.inventory_id, tickDrop s reading, s.baseline_pressure,
            tickAvg s reading⟩)
    else (s1, none)
  else (s, none)

/-- Iterated sampling: fold `tick` over a list of (reading, time) inputs,
collecting the emitted callback events in order. -/
def run : PressureSensor → List (ℚ × ℚ) → PressureSensor × List LeakEvent
  | s, [] => (s, [])
  | s, p :: l =>
    let step := tick s p.1 p.2
    let rest := run step.1 l
    (rest.1, step.2.toList ++ rest.2)

/-- The state after the first `i` ticks of the input list. -/
def stateAt (s : PressureSensor) (l : List (ℚ × ℚ)) (i : ℕ) : PressureSensor :=
  (run s (l.take i)).1

/-- The leak is confirmed at tick `i`: the `leak_detected` flag goes from
false before tick `i` to true after it. -/
abbrev confirmsAt (s : PressureSensor) (l : List (ℚ × ℚ)) (i : ℕ) : Prop :=
  (stateAt s l i).leak_detected = false ∧
    (stateAt s l (i + 1)).leak_detected = true

/-- The dictionary returned by `get_status`. -/
structure Status where
  monitoring : Bool
  inventory_id : Option ℕ
  current_pressure : ℚ
  baseline_pressure : ℚ
  pressure_drop : ℚ
  elapsed_time : ℚ
  leak_detected : Bool
  deriving DecidableEq, Repr

/-- The fixed snapshot `get_status` returns when not monitoring. -/
def idleStatus : Status :=
  { monitoring := false
    inventory_id := none
    current_pressure := 0
    baseline_pressure := 0
    pressure_drop := 0
    elapsed_time := 0
    leak_detected := false }

/-- `get_status`: the idle snapshot when not monitoring; otherwise the live
fields, with the drop computed from `current_pressure` (the raw reading
stored by the last tick) under the same zero-baseline guard. -/
def get_status (s : PressureSensor) (now : ℚ) : Status :=
  if s.is_monitoring then
    { monitoring := true
      inventory_id := some s.inventory_id
      current_pressure := s.current_pressure
      baseline_pressure := s.baseline_pressure
      pressure_drop := dropPct s.baseline_pressure s.current_pressure
      elapsed_time := now - s.monitoring_start_time
      leak_detected := s.leak_detected }
  else idleStatus

/-- The simulation branch of `read_pressure` (no hardware): base 30.0 PSI;
while monitoring with the leak flag set, the value decays by
`(elapsed / monitoring_duration) * (threshold + 5)` and is clamped at 0;
the `random.uniform` jitter is an explicit parameter. -/
def read_pressure_sim (s : PressureSensor) (now jitter : ℚ) : ℚ :=
  if s.is_monitoring ∧ s.leak_detected then
    max 0 (30 - (now - s.monitoring_start_time) / s.monitoring_duration
      * (s.threshold + 5) + jitter)
  else 30 + jitter

/-- Whether a session is live and undecided: monitoring with the leak flag
still clear (the state `start_monitoring` leaves behind). -/
def armed (s : PressureSensor) : Prop :=
  s.is_monitoring = true ∧ s.leak_detected = false

/-! Concrete states used in the closed examples below. -/

/-- A freshly started session with the default configuration: threshold 5,
duration 30, baseline 30 captured at time 0 for asset 1. -/
def armedS : PressureSensor :=
  { threshold := 5
    monitoring_duration := 30
    current_pressure := 0
    baseline_pressure := 30
    is_monitoring := true
    leak_detected := false
    pressure_history := []
    max_history := 10
    inventory_id := 1
    monitoring_start_time := 0 }

/-- `armedS` with the internal leak flag raised (the simulation decay
branch's guard). -/
def leakingS : PressureSensor :=
  { armedS with leak_detected := true }

/-- The state `tick armedS 0 30` leaves behind: the leak fired. -/
def firedS : PressureSensor :=
  { armedS with
      current_pressure := 0
      pressure_history := [0]
      leak_detected := true
      is_monitoring := false }

/-- The state `tick armedS 3 60` leaves behind: the leak fired. -/
def fired2S : PressureSensor :=
  { armedS with
      current_pressure := 3
      pressure_history := [3]
      leak_detected := true
      is_monitoring := false }

/-- Two sampling inputs: a baseline-level reading early, then a deep drop
after the monitoring duration has elapsed. -/
def wl : List (ℚ × ℚ) := [(30, 1), (0, 40)]

/-- Eleven baseline-level sampling inputs at one-second spacing. -/
def ticks11 : List (ℚ × ℚ) := (List.range 11).map (fun i => (30, (i : ℚ) + 1))

/-- Two baseline-level sampling inputs far past the monitoring duration. -/
def constTicks : List (ℚ × ℚ) := [(30, 100), (30, 200)]

/-- A first session on a fresh sensor (baseline 10, asset 1). -/
def sessionOne : PressureSensor :=
  (start_monitoring (init 5 30) 1 [10, 10, 10, 10, 10] 0).1

/-- That session after one sampling tick (reading 10) and a stop. -/
def sessionOneEnd : PressureSensor :=
  stop_monitoring (tick sessionOne 10 1).1

/-- A second session started on the same sensor (baseline 30, asset 2). -/
def sessionTwo : PressureSensor :=
  (start_monitoring sessionOneEnd 2 [30, 30, 30, 30, 30] 100).1

/-! ### Basic facts about a single tick -/

theorem tick_of_not_monitoring (s : PressureSensor) (r t : ℚ)
    (h : s.is_monitoring = false) : tick s r t = (s, none) := by
  simp [tick, h]

theorem tick_fire (s : PressureSensor) (r t : ℚ) (hm : s.is_monitoring = true)
    (hld : s.leak_detected = false) (hc : tickCondHolds s r t) :
    tick s r t =
      ({ s with
          current_pressure := r
          pressure_history := tickWindow s r
          leak_detected := true
          is_monitoring := false },
        some ⟨s.inventory_id, tickDrop s r, s.baseline_pressure, tickAvg s r⟩) := by
  simp [tick, hm, hld, hc]

theorem tick_no_fire_cond (s : PressureSensor) (r t : ℚ)
    (hm : s.is_monitoring = true) (hc : ¬ tickCondHolds s r t) :
    tick s r t =
      ({ s with current_pressure := r, pressure_history := tickWindow s r },
        none) := by
  simp [tick, hm, hc]

theorem tick_skip (s : PressureSensor) (r t : ℚ)
    (hm : s.is_monitoring = true) (hld : s.leak_detected = true)
    (hc : tickCondHolds s r t) :
    tick s r t =
      ({ s with current_pressure := r, pressure_history := tickWindow s r },
        none) := by
  simp [tick, hm, hld, hc]

theorem tick_preserves (s : PressureSensor) (r t : ℚ) :
    ((tick s r t).1).threshold = s.threshold ∧
    ((tick s r t).1).monitoring_duration = s.monitoring_duration ∧
    ((tick s r t).1).baseline_pressure = s.baseline_pressure ∧
    ((tick s r t).1).monitoring_start_time = s.monitoring_start_time ∧
    ((tick s r t).1).inventory_id = s.inventory_id ∧
    ((tick s r t).1).max_history = s.max_history := by
  by_cases hm : s.is_monitoring = true
  · by_cases hc : tickCondHolds s r t
    · by_cases hld : s.leak_detected = true
      · simp [tick_skip s r t hm hld hc]
      · simp [tick_fire s r t hm (by simpa using hld) hc]
    · simp [tick_no_fire_cond s r t hm hc]
  · simp [tick_of_not_monitoring s r t (by simpa using hm)]

theorem tick_leak_stays (s : PressureSensor) (r t : ℚ)
    (h : s.leak_detected = true) : ((tick s r t).1).leak_detected = true := by
  by_cases hm : s.is_monitoring = true
  · by_cases hc : tickCondHolds s r t
    · simp [tick_skip s r t hm h hc, h]
    · simp [tick_no_fire_cond s r t hm hc, h]
  · simp [tick_of_not_monitoring s r t (by simpa using hm), h]

theorem tick_fire_inv (s : PressureSensor) (r t : ℚ) (s' : PressureSensor)
    (e : LeakEvent) (h : tick s r t = (s', some e)) :
    s.is_monitoring = true ∧ s.leak_detected = false ∧ tickCondHolds s r t ∧
    e = ⟨s.inventory_id, tickDrop s r, s.baseline_pressure, tickAvg s r⟩ ∧
    s' = { s with
            current_pressure := r
            pressure_history := tickWindow s r
            leak_detected := true
            is_monitoring := false } := by
  by_cases hm : s.is_monitoring = true
  · by_cases hc : tickCondHolds s r t
    · by_cases hld : s.leak_detected = true
      · rw [tick_skip s r t hm hld hc] at h
        simp at h
      · rw [tick_fire s r t hm (by simpa using hld) hc] at h
        obtain ⟨h1, h2⟩ := Prod.mk.injEq .. ▸ h
        exact ⟨hm, by simpa using hld, hc, by simpa using h2.symm, h1.symm⟩
    · rw [tick_no_fire_cond s r t hm hc] at h
      simp at h
  · rw [tick_of_not_monitoring s r t (by simpa using hm)] at h
    simp at h

/-! ### Basic facts about iterated sampling -/

theorem run_nil (s : PressureSensor) : run s [] = (s, []) := rfl

theorem run_cons (s : PressureSensor) (p : ℚ × ℚ) (l : List (ℚ × ℚ)) :
    run s (p :: l) =
      ((run (tick s p.1 p.2).1 l).1,
        (tick s p.1 p.2).2.toList ++ (run (tick s p.1 p.2).1 l).2) := rfl

theorem run_of_not_monitoring (s : PressureSensor) (l : List (ℚ × ℚ))
    (h : s.is_monitoring = false) : run s l = (s, []) := by
  induction l with
  | nil => rfl
  | cons p l ih => rw [run_cons, tick_of_not_monitoring s p.1 p.2 h]; simp [ih]

theorem run_append (s : PressureSensor) (l₁ l₂ : List (ℚ × ℚ)) :
    run s (l₁ ++ l₂) =
      ((run (run s l₁).1 l₂).1, (run s l₁).2 ++ (run (run s l₁).1 l₂).2) := by
  induction l₁ generalizing s with
  | nil => simp [run_nil]
  | cons p l ih => simp [run_cons, ih]

theorem run_preserves (s : PressureSensor) (l : List (ℚ × ℚ)) :
    ((run s l).1).threshold = s.threshold ∧
    ((run s l).1).monitoring_duration = s.monitoring_duration ∧
    ((run s l).1).baseline_pressure = s.baseline_pressure ∧
    ((run s l).1).monitoring_start_time = s.monitoring_start_time ∧
    ((run s l).1).inventory_id = s.inventory_id ∧
    ((run s l).1).max_history = s.max_history := by
  induction l generalizing s with
  | nil => simp [run_nil]
  | cons p l ih =>
    obtain ⟨h1, h2, h3, h4, h5, h6⟩ := tick_preserves s p.1 p.2
    obtain ⟨g1, g2, g3, g4, g5, g6⟩ := ih (tick s p.1 p.2).1
    rw [run_cons]
    exact ⟨g1.trans h1, g2.trans h2, g3.trans h3, g4.trans h4,
      g5.trans h5, g6.trans h6⟩

theorem run_leak_stays (s : PressureSensor) (l : List (ℚ × ℚ))
    (h : s.leak_detected = true) : ((run s l).1).leak_detected = true := by
  induction l generalizing s with
  | nil => exact h
  | cons p l ih => rw [run_cons]; exact ih _ (tick_leak_stays s p.1 p.2 h)

theorem run_no_fire_events (s : PressureSensor) (l : List (ℚ × ℚ))
    (h0 : s.leak_detected = false)
    (h1 : ((run s l).1).leak_detected = false) : (run s l).2 = [] := by
  induction l generalizing s with
  | nil => rfl
  | cons p l ih =>
    rw [run_cons] at h1 ⊢
    by_cases hm : s.is_monitoring = true
    · by_cases hc : tickCondHolds s p.1 p.2
      · exfalso
        rw [tick_fire s p.1 p.2 hm h0 hc] at h1
        rw [run_leak_stays _ l (by simp)] at h1
        simp at h1
      · rw [tick_no_fire_cond s p.1 p.2 hm hc] at h1 ⊢
        simpa using ih _ (by simpa using h0) (by simpa using h1)
    · rw [tick_of_not_monitoring s p.1 p.2 (by simpa using hm)] at h1 ⊢
      simpa using ih _ h0 (by simpa using h1)

/-! ### The prefix states of a run -/

theorem stateAt_zero (s : PressureSensor) (l : List (ℚ × ℚ)) :
    stateAt s l 0 = s := rfl

theorem stateAt_succ (s : PressureSensor) (l : List (ℚ × ℚ)) (i : ℕ)
    (hi : i < l.length) :
    stateAt s l (i + 1) =
      (tick (stateAt s l i) (l.getD i (0, 0)).1 (l.getD i (0, 0)).2).1 := by
  unfold stateAt
  rw [List.take_succ, List.getElem?_eq_getElem hi, List.getD_eq_getElem l (0, 0) hi]
  rw [run_append]
  rfl

theorem stateAt_preserves (s : PressureSensor) (l : List (ℚ × ℚ)) (i : ℕ) :
    (stateAt s l i).threshold = s.threshold ∧
    (stateAt s l i).monitoring_duration = s.monitoring_duration ∧
    (stateAt s l i).baseline_pressure = s.baseline_pressure ∧
    (stateAt s l i).monitoring_start_time = s.monitoring_start_time := by
  obtain ⟨h1, h2, h3, h4, _, _⟩ := run_preserves s (l.take i)
  exact ⟨h1, h2, h3, h4⟩

/-- Along a run from a live undecided session, the state after `i` ticks is
either still live and undecided — exactly when no earlier tick satisfied the
confirmation condition — or the leak flag has been raised because some
earlier tick satisfied it. -/
theorem run_dichotomy (s : PressureSensor) (l : List (ℚ × ℚ))
    (hm : s.is_monitoring = true) (hld : s.leak_detected = false)
    (i : ℕ) (hi : i ≤ l.length) :
    ((stateAt s l i).is_monitoring = true ∧
      (stateAt s l i).leak_detected = false ∧
      ∀ j, j < i →
        ¬ tickCondHolds (stateAt s l j) (l.getD j (0, 0)).1 (l.getD j (0, 0)).2) ∨
    ((stateAt s l i).leak_detected = true ∧
      ¬ ∀ j, j < i →
        ¬ tickCondHolds (stateAt s l j) (l.getD j (0, 0)).1 (l.getD j (0, 0)).2) := by
  induction i with
  | zero => exact Or.inl ⟨hm, hld, fun j hj => absurd hj (Nat.not_lt_zero j)⟩
  | succ i ih =>
    have hi' : i < l.length := Nat.lt_of_succ_le hi
    rcases ih (Nat.le_of_lt hi') with ⟨km, kld, knc⟩ | ⟨kld, knc⟩
    · by_cases hc : tickCondHolds (stateAt s l i) (l.getD i (0, 0)).1 (l.getD i (0, 0)).2
      · refine Or.inr ⟨?_, ?_⟩
        · rw [stateAt_succ s l i hi', tick_fire _ _ _ km kld hc]
        · intro hall
          exact hall i (Nat.lt_succ_self i) hc
      · refine Or.inl ⟨?_, ?_, ?_⟩
        · rw [stateAt_succ s l i hi', tick_no_fire_cond _ _ _ km hc]
          exact km
        · rw [stateAt_succ s l i hi', tick_no_fire_cond _ _ _ km hc]
          exact kld
        · intro j hj
          rcases Nat.lt_succ_iff_lt_or_eq.mp hj with hj' | hj'
          · exact knc j hj'
          · subst hj'; exact hc
    · refine Or.inr ⟨?_, ?_⟩
      · rw [stateAt_succ s l i hi']
        exact tick_leak_stays _ _ _ kld
      · intro hall
        exact knc fun j hj => hall j (Nat.lt_succ_of_lt hj)

/-- **C1.** For every live undecided session and every sampling schedule, the
leak is confirmed at tick `i` (the `leak_detected` flag goes false-to-true
across that tick) precisely when tick `i` is the first tick at which both the
smoothed drop reaches the threshold and the elapsed time reaches the
monitoring duration; in particular a tick whose drop reaches the threshold
while the elapsed time is still short of the duration never confirms. -/
theorem leak_confirmed_iff_first_qualifying_tick (s : PressureSensor)
    (hm : s.is_monitoring = true) (hld : s.leak_detected = false)
    (l : List (ℚ × ℚ)) (i : ℕ) (hi : i < l.length) :
    (confirmsAt s l i ↔
      (tickCondHolds (stateAt s l i) (l.getD i (0, 0)).1 (l.getD i (0, 0)).2 ∧
        ∀ j, j < i →
          ¬ tickCondHolds (stateAt s l j) (l.getD j (0, 0)).1 (l.getD j (0, 0)).2)) ∧
    ((s.threshold ≤ tickDrop (stateAt s l i) (l.getD i (0, 0)).1 ∧
        (l.getD i (0, 0)).2 - s.monitoring_start_time < s.monitoring_duration) →
      ¬ confirmsAt s l i) := by
  obtain ⟨pth, pdur, _, pstart⟩ := stateAt_preserves s l i
  have main : confirmsAt s l i ↔
      (tickCondHolds (stateAt s l i) (l.getD i (0, 0)).1 (l.getD i (0, 0)).2 ∧
        ∀ j, j < i →
          ¬ tickCondHolds (stateAt s l j) (l.getD j (0, 0)).1 (l.getD j (0, 0)).2) := by
    constructor
    · rintro ⟨h0, h1⟩
      rcases run_dichotomy s l hm hld i (Nat.le_of_lt hi) with ⟨km, kld, knc⟩ | ⟨kld, _⟩
      · refine ⟨?_, knc⟩
        by_contra hc
        rw [stateAt_succ s l i hi, tick_no_fire_cond _ _ _ km hc] at h1
        rw [kld] at h1
        simp at h1
      · rw [kld] at h0; simp at h0
    · rintro ⟨hc, hnc⟩
      rcases run_dichotomy s l hm hld i (Nat.le_of_lt hi) with ⟨km, kld, _⟩ | ⟨_, knc⟩
      · refine ⟨kld, ?_⟩
        rw [stateAt_succ s l i hi, tick_fire _ _ _ km kld hc]
      · exact absurd hnc knc
  refine ⟨main, fun ⟨_, hlate⟩ hconf => ?_⟩
  obtain ⟨⟨_, hdur⟩, _⟩ := main.mp hconf
  rw [pdur, pstart] at hdur
  exact absurd hdur (not_le.mpr hlate)

/-- Witness for C1: on the schedule `wl` the leak is confirmed at tick 1, the
first tick satisfying both conditions. -/
theorem leak_confirmed_iff_first_qualifying_tick_witness :
    armedS.is_monitoring = true ∧ armedS.leak_detected = false ∧ 1 < wl.length ∧
    ((confirmsAt armedS wl 1 ↔
        (tickCondHolds (stateAt armedS wl 1) (wl.getD 1 (0, 0)).1 (wl.getD 1 (0, 0)).2 ∧
          ∀ j, j < 1 →
            ¬ tickCondHolds (stateAt armedS wl j) (wl.getD j (0, 0)).1 (wl.getD j (0, 0)).2)) ∧
      ((armedS.threshold ≤ tickDrop (stateAt armedS wl 1) (wl.getD 1 (0, 0)).1 ∧
          (wl.getD 1 (0, 0)).2 - armedS.monitoring_start_time < armedS.monitoring_duration) →
        ¬ confirmsAt armedS wl 1)) :=
  ⟨rfl, rfl, by decide,
    leak_confirmed_iff_first_qualifying_tick armedS rfl rfl wl 1 (by decide)⟩

/-- **C2.** If some tick of a session (a state whose leak flag is clear)
fires the notification, then the whole run delivers exactly that one event,
its payload is `(inventory_id, pressure_drop, baseline_pressure,
avg_pressure)` computed at the firing tick (the smoothed window mean as the
current-pressure argument), and the resulting state has stopped monitoring,
so no later tick ever fires again. -/
theorem notification_fired_exactly_once (s : PressureSensor)
    (hld : s.leak_detected = false) (l₁ l₂ : List (ℚ × ℚ)) (r t : ℚ)
    (s₂ : PressureSensor) (e : LeakEvent)
    (hfire : tick (run s l₁).1 r t = (s₂, some e)) :
    run s (l₁ ++ (r, t) :: l₂) = (s₂, [e]) ∧
    e = ⟨s.inventory_id, tickDrop (run s l₁).1 r, s.baseline_pressure,
          tickAvg (run s l₁).1 r⟩ ∧
    s₂.is_monitoring = false ∧ s₂.leak_detected = true := by
  obtain ⟨km, kld, kc, ke, ks⟩ := tick_fire_inv _ _ _ _ _ hfire
  obtain ⟨_, _, pb, _, pid, _⟩ := run_preserves s l₁
  have hev1 : (run s l₁).2 = [] := run_no_fire_events s l₁ hld kld
  have hs2m : s₂.is_monitoring = false := by rw [ks]
  have hs2l : s₂.leak_detected = true := by rw [ks]
  refine ⟨?_, ?_, hs2m, hs2l⟩
  · rw [run_append, hev1, run_cons]
    rw [show ((r, t) : ℚ × ℚ).1 = r from rfl, show ((r, t) : ℚ × ℚ).2 = t from rfl]
    rw [hfire, run_of_not_monitoring s₂ l₂ hs2m]
    simp
  · rw [ke, pid, pb]

/-- Witness for C2: a deep reading at time 30 fires the one notification and
the subsequent tick is inert. -/
theorem notification_fired_exactly_once_witness :
    armedS.leak_detected = false ∧
    tick (run armedS []).1 0 30 = (firedS, some ⟨1, 100, 30, 0⟩) ∧
    (run armedS ([] ++ (0, 30) :: [(30, 100)]) = (firedS, [⟨1, 100, 30, 0⟩]) ∧
      (⟨1, 100, 30, 0⟩ : LeakEvent) =
        ⟨armedS.inventory_id, tickDrop (run armedS []).1 0,
          armedS.baseline_pressure, tickAvg (run armedS []).1 0⟩ ∧
      firedS.is_monitoring = false ∧ firedS.leak_detected = true) :=
  ⟨rfl, by with_unfolding_all decide,
    notification_fired_exactly_once armedS rfl [] [(30, 100)] 0 30 firedS _
      (by with_unfolding_all decide)⟩

/-- Counterexample to C3: after a tick reading 20 on a window holding
`[30]`, the stored `current_pressure` is the raw reading 20, not the window
mean 25, and `get_status` reports a drop of 100/3 % computed from the raw
reading rather than the 50/3 % that the smoothed mean would give. -/
theorem current_pressure_not_smoothed_cex :
    ((tick (tick armedS 30 1).1 20 2).1).current_pressure = 20 ∧
    windowAvg (((tick (tick armedS 30 1).1 20 2).1).pressure_history) = 25 ∧
    (20 : ℚ) ≠ 25 ∧
    (get_status ((tick (tick armedS 30 1).1 20 2).1) 3).pressure_drop = 100 / 3 ∧
    dropPct ((tick (tick armedS 30 1).1 20 2).1).baseline_pressure
      (windowAvg (((tick (tick armedS 30 1).1 20 2).1).pressure_history)) = 50 / 3 ∧
    (100 / 3 : ℚ) ≠ 50 / 3 := by
  with_unfolding_all decide

/-- **C3 (amended).** After every sampling tick the session field
`current_pressure` holds the raw reading of that tick; the leak decision at
the tick is taken from the smoothed window mean, but the drop reported by
`get_status` while monitoring is computed from the raw `current_pressure`. -/
theorem current_pressure_is_raw_reading (s : PressureSensor) (r t now : ℚ)
    (hm : s.is_monitoring = true) (hld : s.leak_detected = false) :
    ((tick s r t).1).current_pressure = r ∧
    (((tick s r t).2).isSome ↔ tickCondHolds s r t) ∧
    (((tick s r t).1).is_monitoring = true →
      (get_status ((tick s r t).1) now).pressure_drop =
        dropPct s.baseline_pressure r) := by
  by_cases hc : tickCondHolds s r t
  · rw [tick_fire s r t hm hld hc]
    refine ⟨rfl, ⟨fun _ => hc, fun _ => rfl⟩, ?_⟩
    intro h; simp at h
  · rw [tick_no_fire_cond s r t hm hc]
    exact ⟨rfl, by simp [hc], fun _ => by simp [get_status, hm]⟩

/-- Witness for C3 (amended): the tick reading 20 at time 2. -/
theorem current_pressure_is_raw_reading_witness :
    armedS.is_monitoring = true ∧ armedS.leak_detected = false ∧
    (((tick armedS 20 2).1).current_pressure = 20 ∧
      (((tick armedS 20 2).2).isSome ↔ tickCondHolds armedS 20 2) ∧
      (((tick armedS 20 2).1).is_monitoring = true →
        (get_status ((tick armedS 20 2).1) 3).pressure_drop =
          dropPct armedS.baseline_pressure 20)) :=
  ⟨rfl, rfl, current_pressure_is_raw_reading armedS 20 2 3 rfl rfl⟩

/-- **C4.** While a session is active, calling `start_monitoring` again
returns the conflict result `false` and the entire state — every field — is
exactly what it was. -/
theorem start_conflict_rejected_state_unchanged (s : PressureSensor)
    (hm : s.is_monitoring = true) (inv : ℕ) (br : List ℚ) (now : ℚ) :
    start_monitoring s inv br now = (s, false) := by
  simp [start_monitoring, hm]

/-- Witness for C4: a second start on the live session `armedS`. -/
theorem start_conflict_rejected_state_unchanged_witness :
    armedS.is_monitoring = true ∧
    start_monitoring armedS 2 [1, 2] 50 = (armedS, false) :=
  ⟨rfl, start_conflict_rejected_state_unchanged armedS rfl 2 [1, 2] 50⟩

/-- Counterexample to C5: after a first session (baseline 10, one tick
reading 10) is stopped and a second session starts with baseline 30, the
second session's window still holds the old reading `[10]`, and its first
tick reading 30 smooths to 20 — the old session's reading leaks into the new
session's average. -/
theorem window_carries_over_cex :
    sessionTwo.is_monitoring = true ∧ sessionTwo.leak_detected = false ∧
    sessionTwo.baseline_pressure = 30 ∧
    sessionTwo.pressure_history = [10] ∧
    tickAvg sessionTwo 30 = 20 ∧ (20 : ℚ) ≠ 30 := by
  with_unfolding_all decide

/-- **C5 (amended).** `start_monitoring` never clears the reading window:
the new session begins with exactly the window contents the previous session
left behind, so readings from a previous session keep influencing the
smoothed average until they are evicted. -/
theorem start_preserves_window (s : PressureSensor) (inv : ℕ) (br : List ℚ)
    (now : ℚ) :
    ((start_monitoring s inv br now).1).pressure_history =
      s.pressure_history := by
  unfold start_monitoring
  split <;> rfl

/-- Counterexample to C6: a zero threshold and a negative duration are
accepted at construction and a session starts normally with them. -/
theorem nonpositive_config_accepted_cex :
    (init 0 (-1)).threshold = 0 ∧
    (init 0 (-1)).monitoring_duration = -1 ∧
    (start_monitoring (init 0 (-1)) 1 [30, 30, 30, 30, 30] 5).2 = true ∧
    ((start_monitoring (init 0 (-1)) 1 [30, 30, 30, 30, 30] 5).1).is_monitoring
      = true := by
  with_unfolding_all decide

/-- **C6 (amended).** No configuration validation exists: any threshold and
any duration, non-positive ones included, are stored verbatim by `init`, and
`start_monitoring` on such a freshly constructed sensor succeeds and begins a
session (the window size is the hard-coded constant 10, not an input). -/
theorem config_never_rejected (threshold duration : ℚ) (inv : ℕ)
    (br : List ℚ) (now : ℚ) :
    (init threshold duration).threshold = threshold ∧
    (init threshold duration).monitoring_duration = duration ∧
    (init threshold duration).max_history = 10 ∧
    (start_monitoring (init threshold duration) inv br now).2 = true ∧
    ((start_monitoring (init threshold duration) inv br now).1).is_monitoring
      = true := by
  refine ⟨rfl, rfl, rfl, ?_, ?_⟩ <;> simp [start_monitoring, init]

/-! ### The smoothing window -/

theorem pushWindow_eq_drop (maxH : ℕ) (h : List ℚ) (x : ℚ)
    (hle : h.length ≤ maxH) :
    pushWindow maxH h x = (h ++ [x]).drop (h.length + 1 - maxH) := by
  unfold pushWindow
  simp only [List.length_append, List.length_singleton]
  split
  · rename_i hlt
    have heq : h.length + 1 - maxH = 1 := by omega
    rw [heq, List.drop_one]
  · have heq : h.length + 1 - maxH = 0 := by omega
    rw [heq, List.drop_zero]

theorem length_pushWindow (maxH : ℕ) (h : List ℚ) (x : ℚ)
    (hle : h.length ≤ maxH) :
    (pushWindow maxH h x).length = min (h.length + 1) maxH := by
  rw [pushWindow_eq_drop maxH h x hle, List.length_drop]
  simp only [List.length_append, List.length_singleton]
  omega

theorem foldl_pushWindow_eq_drop (maxH : ℕ) (rs : List ℚ) :
    ∀ h : List ℚ, h.length ≤ maxH →
      rs.foldl (pushWindow maxH) h =
        (h ++ rs).drop (h.length + rs.length - maxH) := by
  induction rs with
  | nil =>
    intro h hle
    have heq : h.length + ([] : List ℚ).length - maxH = 0 := by
      simp only [List.length_nil]; omega
    rw [heq, List.drop_zero, List.foldl_nil, List.append_nil]
  | cons x rs ih =>
    intro h hle
    have hlen : (pushWindow maxH h x).length = min (h.length + 1) maxH :=
      length_pushWindow maxH h x hle
    rw [List.foldl_cons, ih (pushWindow maxH h x) (by omega), hlen,
      pushWindow_eq_drop maxH h x hle]
    have hd1 : h.length + 1 - maxH ≤ (h ++ [x]).length := by
      simp only [List.length_append, List.length_singleton]; omega
    rw [← List.drop_append_of_le_length hd1, List.drop_drop]
    have harr : (h ++ [x]) ++ rs = h ++ x :: rs := by simp
    rw [harr]
    congr 1
    simp only [List.length_cons]
    omega

theorem run_window_le (s : PressureSensor) (l : List (ℚ × ℚ))
    (hlen : s.pressure_history.length ≤ s.max_history) :
    ((run s l).1).pressure_history.length ≤ s.max_history := by
  induction l generalizing s with
  | nil => exact hlen
  | cons p l ih =>
    rw [run_cons]
    have hpush : (tickWindow s p.1).length ≤ s.max_history := by
      unfold tickWindow
      rw [length_pushWindow _ _ _ hlen]
      omega
    by_cases hm : s.is_monitoring = true
    · by_cases hc : tickCondHolds s p.1 p.2
      · by_cases hld : s.leak_detected = true
        · rw [tick_skip s p.1 p.2 hm hld hc]
          exact ih _ hpush
        · rw [tick_fire s p.1 p.2 hm (by simpa using hld) hc]
          exact ih _ hpush
      · rw [tick_no_fire_cond s p.1 p.2 hm hc]
        exact ih _ hpush
    · rw [tick_of_not_monitoring s p.1 p.2 (by simpa using hm)]
      exact ih _ hlen

theorem run_window (s : PressureSensor) (l : List (ℚ × ℚ))
    (hm : s.is_monitoring = true)
    (hact : ((run s l).1).is_monitoring = true) :
    ((run s l).1).pressure_history =
      (l.map Prod.fst).foldl (pushWindow s.max_history) s.pressure_history := by
  induction l generalizing s with
  | nil => rfl
  | cons p l ih =>
    rw [run_cons] at hact ⊢
    rw [List.map_cons, List.foldl_cons]
    by_cases hc : tickCondHolds s p.1 p.2
    · by_cases hld : s.leak_detected = true
      · rw [tick_skip s p.1 p.2 hm hld hc] at hact ⊢
        exact ih _ hm hact
      · exfalso
        rw [tick_fire s p.1 p.2 hm (by simpa using hld) hc,
          run_of_not_monitoring _ l rfl] at hact
        simp at hact
    · rw [tick_no_fire_cond s p.1 p.2 hm hc] at hact ⊢
      exact ih _ hm hact

/-- **C7.** Starting from a session whose window respects the bound, the
window length stays at most `max_history` after any number of ticks; and for
a still-active session that has taken strictly more ticks than the bound,
the window holds exactly the most recent `max_history` raw readings in
arrival order. -/
theorem window_bounded_and_recent (s : PressureSensor) (l : List (ℚ × ℚ))
    (hm : s.is_monitoring = true)
    (hlen : s.pressure_history.length ≤ s.max_history) :
    ((run s l).1).pressure_history.length ≤ s.max_history ∧
    (((run s l).1).is_monitoring = true → s.max_history < l.length →
      ((run s l).1).pressure_history.length = s.max_history ∧
      ((run s l).1).pressure_history =
        (l.map Prod.fst).drop (l.length - s.max_history)) := by
  refine ⟨run_window_le s l hlen, fun hact hlt => ?_⟩
  have hw := run_window s l hm hact
  rw [hw, foldl_pushWindow_eq_drop s.max_history (l.map Prod.fst)
    s.pressure_history hlen]
  have hrs : (l.map Prod.fst).length = l.length := List.length_map _ _
  constructor
  · rw [List.length_drop]
    simp only [List.length_append, hrs]
    omega
  · have hidx : s.pressure_history.length + (l.map Prod.fst).length
        - s.max_history
        = s.pressure_history.length + (l.length - s.max_history) := by
      rw [hrs]; omega
    rw [hidx, List.drop_append]

/-- Witness for C7: eleven constant ticks on a ten-slot window. -/
theorem window_bounded_and_recent_witness :
    armedS.is_monitoring = true ∧
    armedS.pressure_history.length ≤ armedS.max_history ∧
    (((run armedS ticks11).1).pressure_history.length ≤ armedS.max_history ∧
      (((run armedS ticks11).1).is_monitoring = true →
        armedS.max_history < ticks11.length →
        ((run armedS ticks11).1).pressure_history.length = armedS.max_history ∧
        ((run armedS ticks11).1).pressure_history =
          (ticks11.map Prod.fst).drop (ticks11.length - armedS.max_history))) :=
  ⟨rfl, by decide, window_bounded_and_recent armedS ticks11 rfl (by decide)⟩

/-! ### Constant readings at the baseline -/

theorem windowAvg_of_all_eq (h : List ℚ) (b : ℚ) (hne : h ≠ [])
    (hall : ∀ x ∈ h, x = b) : windowAvg h = b := by
  unfold windowAvg
  rw [List.sum_eq_card_nsmul h b hall, nsmul_eq_mul]
  have hlen : (h.length : ℚ) ≠ 0 := by simpa using hne
  rw [mul_comm, mul_div_assoc, div_self hlen, mul_one]

theorem mem_pushWindow (maxH : ℕ) (h : List ℚ) (x y : ℚ)
    (hy : y ∈ pushWindow maxH h x) : y ∈ h ++ [x] := by
  unfold pushWindow at hy
  split at hy
  · exact List.mem_of_mem_tail hy
  · exact hy

theorem pushWindow_ne_nil (maxH : ℕ) (h : List ℚ) (x : ℚ)
    (hmax : 0 < maxH) : pushWindow maxH h x ≠ [] := by
  unfold pushWindow
  split
  · rename_i hlt
    intro hcon
    have hlen := congrArg List.length hcon
    simp only [List.length_tail, List.length_append, List.length_singleton,
      List.length_nil] at hlen
    simp only [List.length_append, List.length_singleton] at hlt
    omega
  · simp

theorem tickDrop_of_baseline_window (s : PressureSensor) (r : ℚ)
    (hmax : 0 < s.max_history)
    (hwin : ∀ x ∈ s.pressure_history, x = s.baseline_pressure)
    (hr : r = s.baseline_pressure) :
    tickDrop s r = 0 := by
  unfold tickDrop
  have havg : tickAvg s r = s.baseline_pressure := by
    unfold tickAvg tickWindow
    apply windowAvg_of_all_eq _ _ (pushWindow_ne_nil _ _ _ hmax)
    intro y hy
    rcases List.mem_append.mp (mem_pushWindow _ _ _ _ hy) with hmem | hmem
    · exact hwin y hmem
    · rw [List.mem_singleton.mp hmem, hr]
  rw [havg]
  unfold dropPct
  split
  · rw [sub_self, zero_div, zero_mul]
  · rfl

theorem run_const_inv (s : PressureSensor) (l : List (ℚ × ℚ))
    (hth : 0 < s.threshold) (hmax : 0 < s.max_history)
    (hm : s.is_monitoring = true) (hld : s.leak_detected = false)
    (hwin : ∀ x ∈ s.pressure_history, x = s.baseline_pressure)
    (hreads : ∀ p ∈ l, (p : ℚ × ℚ).1 = s.baseline_pressure) :
    ((run s l).1).is_monitoring = true ∧
    ((run s l).1).leak_detected = false ∧
    (run s l).2 = [] ∧
    ∀ x ∈ ((run s l).1).pressure_history, x = s.baseline_pressure := by
  induction l generalizing s with
  | nil => exact ⟨hm, hld, rfl, hwin⟩
  | cons p l ih =>
    have hdrop : tickDrop s p.1 = 0 :=
      tickDrop_of_baseline_window s p.1 hmax hwin (hreads p (List.mem_cons_self p l))
    have hc : ¬ tickCondHolds s p.1 p.2 := by
      rintro ⟨h1, _⟩
      rw [hdrop] at h1
      exact absurd h1 (not_le.mpr hth)
    rw [run_cons, tick_no_fire_cond s p.1 p.2 hm hc]
    have hwin' : ∀ x ∈ tickWindow s p.1, x = s.baseline_pressure := by
      intro y hy
      rcases List.mem_append.mp (mem_pushWindow _ _ _ _ hy) with hmem | hmem
      · exact hwin y hmem
      · rw [List.mem_singleton.mp hmem]
        exact hreads p (List.mem_cons_self p l)
    have hreads' : ∀ q ∈ l, (q : ℚ × ℚ).1 = s.baseline_pressure :=
      fun q hq => hreads q (List.mem_cons_of_mem p hq)
    obtain ⟨g1, g2, g3, g4⟩ :=
      ih { s with current_pressure := p.1, pressure_history := tickWindow s p.1 }
        hth hmax hm hld hwin' hreads'
    exact ⟨g1, g2, by simpa using g3, g4⟩

/-- Counterexample to C8: with a zero threshold (accepted, cf. the missing
validation), a session whose baseline samples and only tick reading all
equal 30 has a drop of exactly 0 at that tick — and the leak is nonetheless
confirmed once the duration has elapsed, since `0 >= 0`. -/
theorem constant_readings_leak_cex :
    (start_monitoring (init 0 30) 1 [30, 30, 30, 30, 30] 0).2 = true ∧
    ((start_monitoring (init 0 30) 1 [30, 30, 30, 30, 30] 0).1).baseline_pressure
      = 30 ∧
    tickDrop (start_monitoring (init 0 30) 1 [30, 30, 30, 30, 30] 0).1 30 = 0 ∧
    ((tick (start_monitoring (init 0 30) 1 [30, 30, 30, 30, 30] 0).1 30
        30).1).leak_detected = true := by
  with_unfolding_all decide

/-- **C8 (amended).** For a session with a positive threshold whose window
starts empty, if every raw reading equals the baseline value then the drop
is 0 at every tick and the leak is never confirmed — no notification is
ever sent — no matter how much time the sampling schedule lets elapse. -/
theorem constant_readings_no_leak (s : PressureSensor) (l : List (ℚ × ℚ))
    (hth : 0 < s.threshold) (hmax : 0 < s.max_history)
    (hm : s.is_monitoring = true) (hld : s.leak_detected = false)
    (hwin : s.pressure_history = [])
    (hreads : ∀ p ∈ l, (p : ℚ × ℚ).1 = s.baseline_pressure) :
    ((run s l).1).leak_detected = false ∧ (run s l).2 = [] ∧
    ∀ l₁ p l₂, l = l₁ ++ p :: l₂ → tickDrop ((run s l₁).1) p.1 = 0 := by
  have hwin0 : ∀ x ∈ s.pressure_history, x = s.baseline_pressure := by
    rw [hwin]; intro x hx; cases hx
  obtain ⟨_, hld', hev, _⟩ := run_const_inv s l hth hmax hm hld hwin0 hreads
  refine ⟨hld', hev, ?_⟩
  intro l₁ p l₂ heq
  subst heq
  have hreads₁ : ∀ q ∈ l₁, (q : ℚ × ℚ).1 = s.baseline_pressure := fun q hq =>
    hreads q (List.mem_append.mpr (Or.inl hq))
  obtain ⟨_, _, _, hwin₁⟩ := run_const_inv s l₁ hth hmax hm hld hwin0 hreads₁
  obtain ⟨_, _, pb, _, _, pmax⟩ := run_preserves s l₁
  apply tickDrop_of_baseline_window
  · rw [pmax]; exact hmax
  · rw [pb]; exact hwin₁
  · rw [pb]
    exact hreads p (List.mem_append.mpr (Or.inr (List.mem_cons_self p l₂)))

/-- Witness for C8 (amended): two baseline-level readings far past the
monitoring duration confirm nothing. -/
theorem constant_readings_no_leak_witness :
    (0 : ℚ) < armedS.threshold ∧ 0 < armedS.max_history ∧
    armedS.is_monitoring = true ∧ armedS.leak_detected = false ∧
    armedS.pressure_history = [] ∧
    (∀ p ∈ constTicks, (p : ℚ × ℚ).1 = armedS.baseline_pressure) ∧
    (((run armedS constTicks).1).leak_detected = false ∧
      (run armedS constTicks).2 = [] ∧
      ∀ l₁ p l₂, constTicks = l₁ ++ p :: l₂ →
        tickDrop ((run armedS l₁).1) p.1 = 0) :=
  ⟨by decide, by decide, rfl, rfl, rfl, by with_unfolding_all decide,
    constant_readings_no_leak armedS constTicks (by decide) (by decide) rfl rfl
      rfl (by with_unfolding_all decide)⟩

/-- Counterexample to C9: with the default configuration (base 30,
threshold 5, duration 30), the jitter-free simulated reading at
`elapsed = monitoring_duration` is 20, not zero: the decay reaches
`threshold + 5` percent-points' worth of drop over the duration, not the
full base value. -/
theorem sim_decay_not_zero_at_duration_cex :
    leakingS.is_monitoring = true ∧ leakingS.leak_detected = true ∧
    read_pressure_sim leakingS
      (leakingS.monitoring_start_time + leakingS.monitoring_duration) 0 = 20 ∧
    (20 : ℚ) ≠ 0 := by
  with_unfolding_all decide

/-- **C9 (amended).** While a session is active and flagged as leaking, the
simulated reading (before clamping at zero) falls linearly from the base 30
at rate `(threshold + 5) / monitoring_duration` per time unit; hence at
`elapsed = monitoring_duration` it has dropped by `threshold + 5` units —
not to zero — and, jitter aside, it reaches zero only at
`elapsed = 30 * monitoring_duration / (threshold + 5)`. -/
theorem sim_decay_linear_rate (s : PressureSensor) (now jitter : ℚ)
    (hm : s.is_monitoring = true) (hld : s.leak_detected = true)
    (hd : 0 < s.monitoring_duration) (ht : 0 < s.threshold + 5) :
    read_pressure_sim s now jitter =
      max 0 (30 - (now - s.monitoring_start_time) / s.monitoring_duration
        * (s.threshold + 5) + jitter) ∧
    read_pressure_sim s (s.monitoring_start_time + s.monitoring_duration) 0 =
      max 0 (30 - (s.threshold + 5)) ∧
    read_pressure_sim s
      (s.monitoring_start_time
        + 30 * s.monitoring_duration / (s.threshold + 5)) 0 = 0 := by
  have hcond : s.is_monitoring = true ∧ s.leak_detected = true := ⟨hm, hld⟩
  refine ⟨?_, ?_, ?_⟩
  · unfold read_pressure_sim
    rw [if_pos hcond]
  · unfold read_pressure_sim
    rw [if_pos hcond]
    have helapsed : s.monitoring_start_time + s.monitoring_duration
        - s.monitoring_start_time = s.monitoring_duration := by ring
    rw [helapsed, div_self (ne_of_gt hd), one_mul, add_zero]
  · unfold read_pressure_sim
    rw [if_pos hcond]
    have hprod : (s.monitoring_start_time
          + 30 * s.monitoring_duration / (s.threshold + 5)
          - s.monitoring_start_time) / s.monitoring_duration
        * (s.threshold + 5) = 30 := by
      field_simp
      ring
    rw [hprod]
    norm_num

/-- Witness for C9 (amended): the default leaking session, evaluated at an
arbitrary time with jitter 1 and at the two distinguished times. -/
theorem sim_decay_linear_rate_witness :
    leakingS.is_monitoring = true ∧ leakingS.leak_detected = true ∧
    (0 : ℚ) < leakingS.monitoring_duration ∧
    (0 : ℚ) < leakingS.threshold + 5 ∧
    (read_pressure_sim leakingS 15 1 =
        max 0 (30 - (15 - leakingS.monitoring_start_time)
          / leakingS.monitoring_duration * (leakingS.threshold + 5) + 1) ∧
      read_pressure_sim leakingS
          (leakingS.monitoring_start_time + leakingS.monitoring_duration) 0 =
        max 0 (30 - (leakingS.threshold + 5)) ∧
      read_pressure_sim leakingS
        (leakingS.monitoring_start_time
          + 30 * leakingS.monitoring_duration / (leakingS.threshold + 5)) 0
        = 0) :=
  ⟨rfl, rfl, by decide, by with_unfolding_all decide,
    sim_decay_linear_rate leakingS 15 1 rfl rfl (by decide)
      (by with_unfolding_all decide)⟩

/-- **C10.** Once a tick confirms the leak, the resulting state keeps
`leak_detected = true` internally but has stopped monitoring: every further
tick is inert (no state change, no event), and every later `get_status`
query returns the fixed idle snapshot, whose `monitoring` and
`leak_detected` fields are both `false` — the confirmation is invisible
through `get_status`. -/
theorem status_after_confirmation_idle (s s' : PressureSensor) (r t : ℚ)
    (e : LeakEvent) (hfire : tick s r t = (s', some e)) :
    s'.leak_detected = true ∧ s'.is_monitoring = false ∧
    (∀ l, run s' l = (s', [])) ∧
    (∀ now, get_status s' now = idleStatus) := by
  obtain ⟨_, _, _, _, ks⟩ := tick_fire_inv s r t s' e hfire
  have hm' : s'.is_monitoring = false := by rw [ks]
  have hl' : s'.leak_detected = true := by rw [ks]
  refine ⟨hl', hm', fun l => run_of_not_monitoring s' l hm', fun now => ?_⟩
  simp [get_status, hm']

/-- Witness for C10: the tick reading 3 at time 60 confirms the leak; the
resulting state answers every status query with the idle snapshot. -/
theorem status_after_confirmation_idle_witness :
    tick armedS 3 60 = (fired2S, some ⟨1, 90, 30, 3⟩) ∧
    (fired2S.leak_detected = true ∧ fired2S.is_monitoring = false ∧
      (∀ l, run fired2S l = (fired2S, [])) ∧
      (∀ now, get_status fired2S now = idleStatus)) :=
  ⟨by with_unfolding_all decide,
    status_after_confirmation_idle armedS fired2S 3 60 ⟨1, 90, 30, 3⟩
      (by with_unfolding_all decide)⟩

end PressureSensorModel
